import Mathlib

/-!
Verification of `result-ts` (iahuang/result-ts), a TypeScript implementation of
Rust's `Result` type.

The development shallowly embeds `src/index.ts`.  A TypeScript
`Result<T, E>` is the union `Ok<T> | Err<E>` where `E` is an object type
mapping each error-variant key to its detail type; we model the variant map by
a type `K` of tags together with a detail-type assignment `D : K → Type`, and
the union by a two-constructor inductive.  The `Err<E>` value (which in the
code is the whole failure object `{ ok: false, error, detail }`) is modelled by
the structure `ErrVal`; identifying a failure `Result` with its `ErrVal` is the
isomorphism `e ↦ Result.err e`.

Throwing (`throw result`, `throw new Error(msg)`) is modelled with `Except`
over a `Thrown` type distinguishing the two kinds of thrown values.  Promises
restricted to already-resolved values (the only case the spec's async/sync
equivalence law speaks about) are modelled by the identity context `Deferred`:
`Promise.resolve` is `resolveD`, `await` is `awaitD`, and `.then` is `thenD`.

The runtime object shape of constructed failures (which fields are present on
the plain JS object, and with which values) is modelled separately and
explicitly by `JSValue`, an inductive of JavaScript values, with the
constructors `errJS` / `errConstructorJS` transcribing the object literals
built by `err` (src/index.ts lines 95-97) and by the closure returned by
`errConstructor` (lines 149-160).
-/

set_option autoImplicit false

namespace ResultTs

/-! ## JavaScript value model for the external object shape -/

/-- A JavaScript runtime value, as far as the constructed result objects are
concerned: `undefined`, `null`, booleans, numbers, strings, and plain objects
given as ordered field lists. -/
inductive JSValue : Type where
  | undef
  | nullv
  | bool (b : Bool)
  | num (n : Int)
  | str (s : String)
  | obj (fields : List (String × JSValue))

/-- Field lookup in an object's field list (first match wins, `none` when the
field is not an own property of the object). -/
def jsLookup : List (String × JSValue) → String → Option JSValue
  | [], _ => none
  | (k, v) :: rest, key => if k = key then some v else jsLookup rest key

/-- Reads a field of a JS value: `none` when the value is not an object or the
field is absent; `some JSValue.undef` when the field is present holding
`undefined`. -/
def jsGetField (v : JSValue) (key : String) : Option JSValue :=
  match v with
  | .obj fields => jsLookup fields key
  | _ => none

/-- `err` from src/index.ts lines 95-97 at the level of the constructed
object: `return { ok: false, error, detail };`. -/
def errJS (error : String) (detail : JSValue) : JSValue :=
  .obj [("ok", .bool false), ("error", .str error), ("detail", detail)]

/-- The closure returned by `errConstructor` (src/index.ts lines 149-160) at
the level of the constructed object:
`return { ok: false, error, detail: args[0] as E[K] };` where `args` is the
rest-parameter list, so `args[0]` is `undefined` when no detail argument was
passed. -/
def errConstructorJS (error : String) (args : List JSValue) : JSValue :=
  .obj [("ok", .bool false), ("error", .str error),
        ("detail", args.headD .undef)]

/-- The external Failure shape asserted by spec §6:
`{ ok: false, error: { tag: T, detail: D } }` — the `error` field holds a
nested object that itself carries the variant under a `tag` field. -/
def isNestedFailureShape (v : JSValue) : Bool :=
  match jsGetField v "error" with
  | some (JSValue.obj efields) => (jsLookup efields "tag").isSome
  | _ => false

/-! ## The typed Result model -/

/-- An `Err<E>` value of src/index.ts lines 30-36: one variant tag `error`
drawn from the tag type `K`, with a `detail` of that tag's detail type
`D error`.  (In the code this value also carries `ok: false`, making it the
failure branch of the `Result` union; the identification is
`e ↦ Result.err e`.) -/
structure ErrVal (K : Type) (D : K → Type) where
  error : K
  detail : D error

/-- `Result<T, E> = Err<E> | Ok<T>` (src/index.ts line 55), with the `ok`
discriminant of the union becoming the constructor. -/
inductive Result (T : Type) (K : Type) (D : K → Type) : Type where
  | ok (value : T)
  | err (e : ErrVal K D)

/-- The `ok` discriminant field of the plain object (`true` on the success
branch, `false` on the failure branch). -/
def Result.okFlag {T K : Type} {D : K → Type} : Result T K D → Bool
  | .ok _ => true
  | .err _ => false

/-- `ok(value)` (src/index.ts lines 78-80): `return { ok: true, value };`. -/
def ok {T K : Type} {D : K → Type} (value : T) : Result T K D :=
  Result.ok value

/-- `err(error, detail)` (src/index.ts lines 95-97):
`return { ok: false, error, detail };`, viewed as a `Result` (in the code an
`Err` value is already a failure `Result`). -/
def err {T K : Type} {D : K → Type} (error : K) (detail : D error) :
    Result T K D :=
  Result.err ⟨error, detail⟩

/-- A value thrown by the library: either a failure result thrown as-is
(`throw result`) or a fresh generic error (`throw new Error(msg)`). -/
inductive Thrown (K : Type) (D : K → Type) : Type where
  | failureValue (e : ErrVal K D)
  | jsError (msg : String)

variable {T R U : Type} {K K' : Type} {D : K → Type} {D' : K' → Type}

/-! ## Synchronous combinators (src/index.ts lines 240-611) -/

/-- `resultAnd` (lines 240-245): `return result.ok ? other : result;`. -/
def resultAnd (result : Result T K D) (other : Result T K D) : Result T K D :=
  match result with
  | .ok _ => other
  | .err e => .err e

/-- `resultAndThen` (lines 256-261):
`return result.ok ? fn(result.value) : result;`. -/
def resultAndThen (result : Result T K D) (fn : T → Result R K D) :
    Result R K D :=
  match result with
  | .ok v => fn v
  | .err e => .err e

/-- `resultErr` (lines 269-271): `return !result.ok ? result : null;`. -/
def resultErr (result : Result T K D) : Option (ErrVal K D) :=
  match result with
  | .ok _ => none
  | .err e => some e

/-- `resultExpect` (lines 286-291): throws `new Error(msg)` on the failure
branch, otherwise returns the contained value. -/
def resultExpect (result : Result T K D) (msg : String) :
    Except (Thrown K D) T :=
  match result with
  | .ok v => .ok v
  | .err _ => .error (.jsError msg)

/-- `resultExpectErr` (lines 301-309): throws `new Error(msg)` on the success
branch, otherwise returns the failure value. -/
def resultExpectErr (result : Result T K D) (msg : String) :
    Except (Thrown K D) (ErrVal K D) :=
  match result with
  | .ok _ => .error (.jsError msg)
  | .err e => .ok e

/-- `resultFlatten` (lines 319-323):
`return result.ok ? result.value : result;`. -/
def resultFlatten (result : Result (Result T K D) K D) : Result T K D :=
  match result with
  | .ok inner => inner
  | .err e => .err e

/-- `resultInspect` (lines 334-342): calls `fn` on the success value as a side
effect and returns the original result. -/
def resultInspect (result : Result T K D) (fn : T → Unit) : Result T K D :=
  match result with
  | .ok v =>
    have _u : Unit := fn v
    result
  | .err _ => result

/-- `resultInspectErr` (lines 353-361): calls `fn` on the failure value as a
side effect and returns the original result. -/
def resultInspectErr (result : Result T K D) (fn : ErrVal K D → Unit) :
    Result T K D :=
  match result with
  | .ok _ => result
  | .err e =>
    have _u : Unit := fn e
    result

/-- `resultIsErr` (lines 369-371): `return !r.ok;`. -/
def resultIsErr (r : Result T K D) : Bool :=
  !r.okFlag

/-- `resultIsErrAnd` (lines 380-385): `return !r.ok && fn(r);`. -/
def resultIsErrAnd (r : Result T K D) (fn : ErrVal K D → Bool) : Bool :=
  match r with
  | .ok _ => false
  | .err e => fn e

/-- `resultIsOk` (lines 393-395): `return r.ok;`. -/
def resultIsOk (r : Result T K D) : Bool :=
  r.okFlag

/-- `resultIsOkAnd` (lines 404-409): `return r.ok && fn(r.value);`. -/
def resultIsOkAnd (r : Result T K D) (fn : T → Bool) : Bool :=
  match r with
  | .ok v => fn v
  | .err _ => false

/-- `resultMap` (lines 421-426):
`return result.ok ? ok(fn(result.value)) : result;`. -/
def resultMap (result : Result T K D) (fn : T → R) : Result R K D :=
  match result with
  | .ok v => ok (fn v)
  | .err e => .err e

/-- `resultMapErr` (lines 438-443):
`return result.ok ? (result as Ok<T>) : fn(result);`. -/
def resultMapErr (result : Result T K D) (fn : ErrVal K D → ErrVal K' D') :
    Result T K' D' :=
  match result with
  | .ok v => .ok v
  | .err e => .err (fn e)

/-- `resultMapOr` (lines 456-462):
`return result.ok ? fn(result.value) : defaultValue;`. -/
def resultMapOr (result : Result T K D) (defaultValue : R) (fn : T → R) : R :=
  match result with
  | .ok v => fn v
  | .err _ => defaultValue

/-- `resultMapOrElse` (lines 475-481):
`return result.ok ? fn(result.value) : defaultValue(result);`. -/
def resultMapOrElse (result : Result T K D) (defaultValue : ErrVal K D → R)
    (fn : T → R) : R :=
  match result with
  | .ok v => fn v
  | .err e => defaultValue e

/-- `resultOk` (lines 489-491): `return result.ok ? result.value : null;`. -/
def resultOk (result : Result T K D) : Option T :=
  match result with
  | .ok v => some v
  | .err _ => none

/-- `resultOr` (lines 503-508): `return result.ok ? result : other;`. -/
def resultOr (result : Result T K D) (other : Result T K D) : Result T K D :=
  match result with
  | .ok v => .ok v
  | .err _ => other

/-- `resultOrElse` (lines 519-524): `return result.ok ? result : fn(result);`. -/
def resultOrElse (result : Result T K D) (fn : ErrVal K D → Result T K D) :
    Result T K D :=
  match result with
  | .ok v => .ok v
  | .err e => fn e

/-- `resultUnwrap` (lines 538-543): on the failure branch the code does
`throw result` — it throws the failure value itself — otherwise it returns the
contained value. -/
def resultUnwrap (result : Result T K D) : Except (Thrown K D) T :=
  match result with
  | .ok v => .ok v
  | .err e => .error (.failureValue e)

/-- `resultUnwrapErr` (lines 552-557): on the success branch the code does
`throw new Error("Result is ok; expected an error")`, otherwise it returns the
failure value. -/
def resultUnwrapErr (result : Result T K D) :
    Except (Thrown K D) (ErrVal K D) :=
  match result with
  | .ok _ => .error (.jsError "Result is ok; expected an error")
  | .err e => .ok e

/-- `resultUnwrapOr` (lines 569-571):
`return result.ok ? result.value : defaultValue;`. -/
def resultUnwrapOr (result : Result T K D) (defaultValue : T) : T :=
  match result with
  | .ok v => v
  | .err _ => defaultValue

/-- `resultUnwrapOrElse` (lines 580-585):
`return result.ok ? result.value : fn(result);`. -/
def resultUnwrapOrElse (result : Result T K D) (fn : ErrVal K D → T) : T :=
  match result with
  | .ok v => v
  | .err e => fn e

/-- `tryCatchResult` (lines 602-611): runs the user computation (modelled as
an `Except` value: `.ok` = a normal return, `.error` = a thrown value), wraps
a normal return with `ok` and converts a thrown value through the
caller-supplied `err` function. -/
def tryCatchResult (fn : Except U T) (err : U → ErrVal K D) : Result T K D :=
  match fn with
  | .ok v => ok v
  | .error e => .err (err e)

/-! ## Deferred (already-resolved promise) model

The spec's async/sync equivalence law quantifies over already-resolved
deferred outcomes with pure callbacks; for those, a `Promise<α>` is its
resolved value, `Promise.resolve` is the identity injection, `await` reads the
value back, and `.then` (with an async callback, whose returned value is
auto-lifted) is reverse application. -/

/-- A deferred value that is already resolved. -/
def Deferred (α : Type) : Type := α

/-- `Promise.resolve` / the implicit lifting of an `async` function's return
value. -/
def resolveD {α : Type} (a : α) : Deferred α := a

/-- `await` on an already-resolved promise. -/
def awaitD {α : Type} (x : Deferred α) : α := x

/-- `.then` on an already-resolved promise. -/
def thenD {α β : Type} (x : Deferred α) (f : α → Deferred β) : Deferred β :=
  f (awaitD x)

/-! ## Asynchronous combinators (src/index.ts lines 621-871) -/

/-- `asyncResultAnd` (lines 621-626):
`return result.then((r) => (r.ok ? other : r));`. -/
def asyncResultAnd (result : Deferred (Result T K D))
    (other : Deferred (Result T K D)) : Deferred (Result T K D) :=
  thenD result fun r =>
    match r with
    | .ok _ => other
    | .err e => resolveD (.err e)

/-- `asyncResultAndThen` (lines 636-641):
`return result.then((r) => (r.ok ? fn(r.value) : r));`. -/
def asyncResultAndThen (result : Deferred (Result T K D))
    (fn : T → Deferred (Result R K D)) : Deferred (Result R K D) :=
  thenD result fun r =>
    match r with
    | .ok v => fn v
    | .err e => resolveD (.err e)

/-- `asyncResultErr` (lines 643-648). -/
def asyncResultErr (result : Deferred (Result T K D)) :
    Deferred (Option (ErrVal K D)) :=
  resolveD (resultErr (awaitD result))

/-- `asyncResultExpect` (lines 650-659). -/
def asyncResultExpect (result : Deferred (Result T K D)) (msg : String) :
    Deferred (Except (Thrown K D) T) :=
  match awaitD result with
  | .ok v => resolveD (.ok v)
  | .err _ => resolveD (.error (.jsError msg))

/-- `asyncResultExpectErr` (lines 661-670). -/
def asyncResultExpectErr (result : Deferred (Result T K D)) (msg : String) :
    Deferred (Except (Thrown K D) (ErrVal K D)) :=
  match awaitD result with
  | .ok _ => resolveD (.error (.jsError msg))
  | .err e => resolveD (.ok e)

/-- `asyncResultFlatten` (lines 672-676):
`return result.then((r) => (r.ok ? r.value : r));`. -/
def asyncResultFlatten (result : Deferred (Result (Result T K D) K D)) :
    Deferred (Result T K D) :=
  thenD result fun r =>
    match r with
    | .ok inner => inner
    | .err e => resolveD (.err e)

/-- `asyncResultInspect` (lines 678-688). -/
def asyncResultInspect (result : Deferred (Result T K D))
    (fn : T → Deferred Unit) : Deferred (Result T K D) :=
  thenD result fun r =>
    match r with
    | .ok v =>
      have _u : Unit := awaitD (fn v)
      resolveD r
    | .err _ => resolveD r

/-- `asyncResultInspectErr` (lines 690-700). -/
def asyncResultInspectErr (result : Deferred (Result T K D))
    (fn : ErrVal K D → Deferred Unit) : Deferred (Result T K D) :=
  thenD result fun r =>
    match r with
    | .ok _ => resolveD r
    | .err e =>
      have _u : Unit := awaitD (fn e)
      resolveD r

/-- `asyncResultIsErr` (lines 702-707): `return !r.ok;`. -/
def asyncResultIsErr (result : Deferred (Result T K D)) : Deferred Bool :=
  resolveD (!(awaitD result).okFlag)

/-- `asyncResultIsErrAnd` (lines 709-715). -/
def asyncResultIsErrAnd (result : Deferred (Result T K D))
    (fn : ErrVal K D → Bool) : Deferred Bool :=
  match awaitD result with
  | .ok _ => resolveD false
  | .err e => resolveD (fn e)

/-- `asyncResultIsOk` (lines 717-722): `return r.ok;`. -/
def asyncResultIsOk (result : Deferred (Result T K D)) : Deferred Bool :=
  resolveD (awaitD result).okFlag

/-- `asyncResultIsOkAnd` (lines 724-730). -/
def asyncResultIsOkAnd (result : Deferred (Result T K D)) (fn : T → Bool) :
    Deferred Bool :=
  match awaitD result with
  | .ok v => resolveD (fn v)
  | .err _ => resolveD false

/-- `asyncResultMap` (lines 732-737):
`return result.then(async (r) => (r.ok ? ok(await fn(r.value)) : r));`. -/
def asyncResultMap (result : Deferred (Result T K D)) (fn : T → Deferred R) :
    Deferred (Result R K D) :=
  thenD result fun r =>
    match r with
    | .ok v => resolveD (ok (awaitD (fn v)))
    | .err e => resolveD (.err e)

/-- `asyncResultMapErr` (lines 739-744):
`return result.then(async (r) => (r.ok ? (r as Ok<T>) : await fn(r)));`. -/
def asyncResultMapErr (result : Deferred (Result T K D))
    (fn : ErrVal K D → Deferred (ErrVal K' D')) : Deferred (Result T K' D') :=
  thenD result fun r =>
    match r with
    | .ok v => resolveD (.ok v)
    | .err e => resolveD (.err (awaitD (fn e)))

/-- `asyncResultMapOr` (lines 746-753). -/
def asyncResultMapOr (result : Deferred (Result T K D)) (defaultValue : R)
    (fn : T → Deferred R) : Deferred R :=
  match awaitD result with
  | .ok v => resolveD (awaitD (fn v))
  | .err _ => resolveD defaultValue

/-- `asyncResultMapOrElse` (lines 755-762). -/
def asyncResultMapOrElse (result : Deferred (Result T K D))
    (defaultValue : ErrVal K D → Deferred R) (fn : T → Deferred R) :
    Deferred R :=
  match awaitD result with
  | .ok v => resolveD (awaitD (fn v))
  | .err e => resolveD (awaitD (defaultValue e))

/-- `asyncResultOk` (lines 764-769). -/
def asyncResultOk (result : Deferred (Result T K D)) : Deferred (Option T) :=
  resolveD (resultOk (awaitD result))

/-- `asyncResultOr` (lines 771-776):
`return result.then((r) => (r.ok ? r : other));`. -/
def asyncResultOr (result : Deferred (Result T K D))
    (other : Deferred (Result T K D)) : Deferred (Result T K D) :=
  thenD result fun r =>
    match r with
    | .ok v => resolveD (.ok v)
    | .err _ => other

/-- `asyncResultOrElse` (lines 778-783):
`return result.then((r) => (r.ok ? r : fn(r)));`. -/
def asyncResultOrElse (result : Deferred (Result T K D))
    (fn : ErrVal K D → Deferred (Result T K D)) : Deferred (Result T K D) :=
  thenD result fun r =>
    match r with
    | .ok v => resolveD (.ok v)
    | .err e => fn e

/-- `asyncResultUnwrap` (lines 785-793): `if (!r.ok) { throw r; }`. -/
def asyncResultUnwrap (result : Deferred (Result T K D)) :
    Deferred (Except (Thrown K D) T) :=
  match awaitD result with
  | .ok v => resolveD (.ok v)
  | .err e => resolveD (.error (.failureValue e))

/-- `asyncResultUnwrapErr` (lines 795-803). -/
def asyncResultUnwrapErr (result : Deferred (Result T K D)) :
    Deferred (Except (Thrown K D) (ErrVal K D)) :=
  match awaitD result with
  | .ok _ => resolveD (.error (.jsError "Result is ok; expected an error"))
  | .err e => resolveD (.ok e)

/-- `asyncResultUnwrapOr` (lines 805-811). -/
def asyncResultUnwrapOr (result : Deferred (Result T K D))
    (defaultValue : T) : Deferred T :=
  match awaitD result with
  | .ok v => resolveD v
  | .err _ => resolveD defaultValue

/-- `asyncResultUnwrapOrElse` (lines 813-819). -/
def asyncResultUnwrapOrElse (result : Deferred (Result T K D))
    (fn : ErrVal K D → Deferred T) : Deferred T :=
  match awaitD result with
  | .ok v => resolveD v
  | .err e => resolveD (awaitD (fn e))

/-- `tryCatchResultAsync` (lines 836-845): runs the async user computation
(`.ok` = a normal resolution, `.error` = a thrown/rejected value), wraps a
normal resolution with `ok` and converts the thrown value through `err`. -/
def tryCatchResultAsync (fn : Deferred (Except U T)) (err : U → ErrVal K D) :
    Deferred (Result T K D) :=
  match awaitD fn with
  | .ok v => resolveD (ok v)
  | .error e => resolveD (.err (err e))

/-- `tryCatchResultPromise` (lines 862-871): awaits the given promise (`.ok` =
a resolution, `.error` = a rejection reason), wraps a resolution with `ok` and
converts a rejection through `err`. -/
def tryCatchResultPromise (prom : Deferred (Except U T))
    (err : U → ErrVal K D) : Deferred (Result T K D) :=
  match awaitD prom with
  | .ok v => resolveD (ok v)
  | .error e => resolveD (.err (err e))

/-! ## The fluent sync wrapper (src/index.ts lines 900-972)

A `Chain<T, E>` is a record whose `result` field holds the current outcome and
whose methods are closures over that same outcome, each delegating to the
corresponding free function (`chain(initial)` stores `initial` in `result` and
every method body applies a free function to `initial`).  Since the record
carries no other state, the wrapper is modelled by a structure holding the
current outcome, with one Lean function per method, where the method reads
back the stored outcome (`c.result`, definitionally the `initial` the closures
captured) and delegates exactly as the closure bodies do. -/

/-- The fluent wrapper: carries the current outcome and nothing else. -/
structure Chain (T : Type) (K : Type) (D : K → Type) : Type where
  result : Result T K D

/-- `chain(initial)` (lines 942-972): builds the wrapper for `initial`. -/
def chain (initial : Result T K D) : Chain T K D :=
  ⟨initial⟩

/-- Method `and`: `(other) => chain(resultAnd(initial, other))`. -/
def Chain.and (c : Chain T K D) (other : Result T K D) : Chain T K D :=
  chain (resultAnd c.result other)

/-- Method `andThen`: `(fn) => chain(resultAndThen(initial, fn))`. -/
def Chain.andThen (c : Chain T K D) (fn : T → Result R K D) : Chain R K D :=
  chain (resultAndThen c.result fn)

/-- Method `map`: `(fn) => chain(resultMap(initial, fn))`. -/
def Chain.map (c : Chain T K D) (fn : T → R) : Chain R K D :=
  chain (resultMap c.result fn)

/-- Method `mapErr`: `(fn) => chain(resultMapErr(initial, fn))`. -/
def Chain.mapErr (c : Chain T K D) (fn : ErrVal K D → ErrVal K' D') :
    Chain T K' D' :=
  chain (resultMapErr c.result fn)

/-- Method `mapOr`: `(defaultValue, fn) => resultMapOr(initial, defaultValue, fn)`. -/
def Chain.mapOr (c : Chain T K D) (defaultValue : R) (fn : T → R) : R :=
  resultMapOr c.result defaultValue fn

/-- Method `mapOrElse`: delegates to `resultMapOrElse`. -/
def Chain.mapOrElse (c : Chain T K D) (defaultValue : ErrVal K D → R)
    (fn : T → R) : R :=
  resultMapOrElse c.result defaultValue fn

/-- Method `or`: `(other) => chain(resultOr(initial, other))`. -/
def Chain.or (c : Chain T K D) (other : Result T K D) : Chain T K D :=
  chain (resultOr c.result other)

/-- Method `orElse`: `(fn) => chain(resultOrElse(initial, fn))`. -/
def Chain.orElse (c : Chain T K D) (fn : ErrVal K D → Result T K D) :
    Chain T K D :=
  chain (resultOrElse c.result fn)

/-- Method `unwrap`: `() => resultUnwrap(initial)`. -/
def Chain.unwrap (c : Chain T K D) : Except (Thrown K D) T :=
  resultUnwrap c.result

/-- Method `unwrapOr`: delegates to `resultUnwrapOr`. -/
def Chain.unwrapOr (c : Chain T K D) (defaultValue : T) : T :=
  resultUnwrapOr c.result defaultValue

/-- Method `unwrapOrElse`: delegates to `resultUnwrapOrElse`. -/
def Chain.unwrapOrElse (c : Chain T K D) (fn : ErrVal K D → T) : T :=
  resultUnwrapOrElse c.result fn

/-- Method `expect`: delegates to `resultExpect`. -/
def Chain.expect (c : Chain T K D) (msg : String) : Except (Thrown K D) T :=
  resultExpect c.result msg

/-- Method `expectErr`: delegates to `resultExpectErr`. -/
def Chain.expectErr (c : Chain T K D) (msg : String) :
    Except (Thrown K D) (ErrVal K D) :=
  resultExpectErr c.result msg

/-- Method `unwrapErr`: delegates to `resultUnwrapErr`. -/
def Chain.unwrapErr (c : Chain T K D) : Except (Thrown K D) (ErrVal K D) :=
  resultUnwrapErr c.result

/-- Method `flatten`: `() => chain(resultFlatten(initial))`. -/
def Chain.flatten (c : Chain (Result T K D) K D) : Chain T K D :=
  chain (resultFlatten c.result)

/-- Method `inspect`: `(fn) => chain(resultInspect(initial, fn))`. -/
def Chain.inspect (c : Chain T K D) (fn : T → Unit) : Chain T K D :=
  chain (resultInspect c.result fn)

/-- Method `inspectErr`: `(fn) => chain(resultInspectErr(initial, fn))`. -/
def Chain.inspectErr (c : Chain T K D) (fn : ErrVal K D → Unit) :
    Chain T K D :=
  chain (resultInspectErr c.result fn)

/-- Method `isOk`: `() => resultIsOk(initial)`. -/
def Chain.isOk (c : Chain T K D) : Bool :=
  resultIsOk c.result

/-- Method `isErr`: `() => resultIsErr(initial)`. -/
def Chain.isErr (c : Chain T K D) : Bool :=
  resultIsErr c.result

/-- Method `isOkAnd`: delegates to `resultIsOkAnd`. -/
def Chain.isOkAnd (c : Chain T K D) (fn : T → Bool) : Bool :=
  resultIsOkAnd c.result fn

/-- Method `isErrAnd`: delegates to `resultIsErrAnd`. -/
def Chain.isErrAnd (c : Chain T K D) (fn : ErrVal K D → Bool) : Bool :=
  resultIsErrAnd c.result fn

/-- Method `ok`: `() => resultOk(initial)`. -/
def Chain.ok (c : Chain T K D) : Option T :=
  resultOk c.result

/-- Method `err`: `() => resultErr(initial)`. -/
def Chain.err (c : Chain T K D) : Option (ErrVal K D) :=
  resultErr c.result

/-! ## Pattern dispatch -/

/-- `match` (src/index.ts lines 1115-1123):
`return result.ok ? handlers.ok(result.value) : handlers.err(result);`. -/
def matchResult (result : Result T K D) (onOk : T → R)
    (onErr : ErrVal K D → R) : R :=
  match result with
  | .ok v => onOk v
  | .err e => onErr e

/-- Modelled from the spec: `matchNested` — the nested pattern-dispatch
operation of the later revision, whose implementation is not under `src/`
(only the later revision's README documents it).  Per spec §4.6, it is "like
`match`, but the failure branch dispatches to a per-tag handler keyed by the
Failure's tag, each handler receiving that tag's specific detail type"; the
per-tag handler object, exhaustive over the closed tag set, is modelled by a
dependent function over the tag type. -/
def matchNested (r : Result T K D) (onSuccess : T → R)
    (onFailureByTag : (k : K) → D k → R) : R :=
  match r with
  | .ok v => onSuccess v
  | .err e => onFailureByTag e.error e.detail

/-! ## A concrete error-variant map for the spec's scenarios

The spec's running example (`ParseErrors` in the library's own doc comment):
`invalid_number` with a string detail and `negative` with a numeric detail.
The closed, statically-known key set is modelled by an inductive tag type. -/

/-- The tags of the `ParseErrors` variant map. -/
inductive ParseTag : Type where
  | invalid_number
  | negative
deriving DecidableEq

/-- The per-tag detail types of the `ParseErrors` variant map. -/
@[reducible] def ParseDetail : ParseTag → Type
  | .invalid_number => String
  | .negative => Int

/-- The per-tag failure handlers of the spec's `matchNested` scenario:
`{invalid_number: ..., negative: n => "neg:" + n}`. -/
def parseHandlers : (k : ParseTag) → ParseDetail k → String
  | .invalid_number => fun s => "invalid:" ++ s
  | .negative => fun n => "neg:" ++ toString n

/-! ## Claims -/

/-- C1 (counterexample): the claim asserts that every Failure built by the
failure constructors has the nested external shape
`{ ok: false, error: { tag: T, detail: D } }`, with `detail` absent when the
variant has no detail.  Both parts fail on the code: `err("not_found",
"/path")` (the library's own doc example) builds an object whose `error` field
is the bare tag string, not a nested `{ tag, detail }` object, and the bound
constructor from `errConstructor` called without a detail argument builds an
object whose `detail` field is present, holding `undefined`. -/
theorem C1_counterexample :
    isNestedFailureShape (errJS "not_found" (JSValue.str "/path")) = false ∧
    jsGetField (errConstructorJS "timeout" []) "detail" = some JSValue.undef :=
  ⟨rfl, rfl⟩

/-- C1 (amended): every Failure constructed by `err` or by the bound
constructor from `errConstructor` has the flat external shape
`{ ok: false, error: T, detail: D }` — `ok` is `false`, `error` holds the
variant key directly, and `detail` is a top-level field holding the variant's
detail, present with the placeholder `undefined` (not omitted) when no detail
argument is passed. -/
theorem C1_flat_failure_shape (error : String) (detail : JSValue)
    (args : List JSValue) :
    jsGetField (errJS error detail) "ok" = some (JSValue.bool false) ∧
    jsGetField (errJS error detail) "error" = some (JSValue.str error) ∧
    jsGetField (errJS error detail) "detail" = some detail ∧
    isNestedFailureShape (errJS error detail) = false ∧
    jsGetField (errConstructorJS error args) "ok"
      = some (JSValue.bool false) ∧
    jsGetField (errConstructorJS error args) "error"
      = some (JSValue.str error) ∧
    jsGetField (errConstructorJS error (detail :: args)) "detail"
      = some detail ∧
    jsGetField (errConstructorJS error []) "detail" = some JSValue.undef :=
  ⟨rfl, rfl, rfl, rfl, rfl, rfl, rfl, rfl⟩

/-- C2: `matchNested` (modelled from the spec, its implementation being absent
from `src/`) calls the success handler on the success branch and on the
failure branch dispatches to the per-tag handler keyed by the Failure's tag,
passing that tag's detail value; in particular on `failure("negative", -3)`
with handlers `{invalid_number: ..., negative: n => "neg:" + n}` it yields
`"neg:-3"`. -/
theorem C2_matchNested_dispatch :
    (∀ (T R K : Type) (D : K → Type) (v : T) (onS : T → R)
        (onF : (k : K) → D k → R),
        matchNested (Result.ok v) onS onF = onS v) ∧
    (∀ (T R K : Type) (D : K → Type) (k : K) (d : D k) (onS : T → R)
        (onF : (k : K) → D k → R),
        matchNested (err k d : Result T K D) onS onF = onF k d) ∧
    matchNested (err ParseTag.negative (-3 : Int) : Result Nat ParseTag ParseDetail)
        (fun n => toString n) parseHandlers = "neg:-3" :=
  ⟨fun _ _ _ _ _ _ _ => rfl, fun _ _ _ _ _ _ _ _ => rfl, rfl⟩

/-- C3: short-circuiting combinators return their input unchanged on the
non-matching branch: a Failure passes through `resultMap`, `resultAndThen`
and `resultAnd` untouched, and dually a Success passes through
`resultMapErr`, `resultOrElse` and `resultOr` untouched. -/
theorem C3_short_circuit (T R K K' : Type) (D : K → Type) (D' : K' → Type)
    (e : ErrVal K D) (v : T) (fn1 : T → R) (fn2 : T → Result R K D)
    (other other' : Result T K D) (fnE : ErrVal K D → ErrVal K' D')
    (fnO : ErrVal K D → Result T K D) :
    resultMap (Result.err e : Result T K D) fn1 = Result.err e ∧
    resultAndThen (Result.err e : Result T K D) fn2 = Result.err e ∧
    resultAnd (Result.err e) other = Result.err e ∧
    resultMapErr (Result.ok v : Result T K D) fnE = Result.ok v ∧
    resultOrElse (Result.ok v : Result T K D) fnO = Result.ok v ∧
    resultOr (Result.ok v) other' = Result.ok v :=
  ⟨rfl, rfl, rfl, rfl, rfl, rfl⟩

/-- C4: every method of the fluent sync wrapper agrees with the corresponding
free combinator applied to the wrapped outcome: for chain-returning methods
the new wrapper's `result` equals the free function's value, and for
value-returning methods the method's return value equals the free function's
return value. -/
theorem C4_chain_delegates (T R K K' : Type) (D : K → Type) (D' : K' → Type)
    (r : Result T K D) (r2 : Result (Result T K D) K D)
    (other : Result T K D) (fn : T → Result R K D) (fnm : T → R)
    (fne : ErrVal K D → ErrVal K' D') (dv : R) (fmoe : ErrVal K D → R)
    (fnv : T → R) (fno : ErrVal K D → Result T K D) (dT : T)
    (fnT : ErrVal K D → T) (msg : String) (fnU : T → Unit)
    (fnEU : ErrVal K D → Unit) (p : T → Bool) (pe : ErrVal K D → Bool) :
    (chain r).result = r ∧
    ((chain r).and other).result = resultAnd r other ∧
    ((chain r).andThen fn).result = resultAndThen r fn ∧
    ((chain r).map fnm).result = resultMap r fnm ∧
    ((chain r).mapErr fne).result = resultMapErr r fne ∧
    (chain r).mapOr dv fnv = resultMapOr r dv fnv ∧
    (chain r).mapOrElse fmoe fnv = resultMapOrElse r fmoe fnv ∧
    ((chain r).or other).result = resultOr r other ∧
    ((chain r).orElse fno).result = resultOrElse r fno ∧
    (chain r).unwrap = resultUnwrap r ∧
    (chain r).unwrapOr dT = resultUnwrapOr r dT ∧
    (chain r).unwrapOrElse fnT = resultUnwrapOrElse r fnT ∧
    (chain r).expect msg = resultExpect r msg ∧
    (chain r).expectErr msg = resultExpectErr r msg ∧
    (chain r).unwrapErr = resultUnwrapErr r ∧
    ((chain r2).flatten).result = resultFlatten r2 ∧
    ((chain r).inspect fnU).result = resultInspect r fnU ∧
    ((chain r).inspectErr fnEU).result = resultInspectErr r fnEU ∧
    (chain r).isOk = resultIsOk r ∧
    (chain r).isErr = resultIsErr r ∧
    (chain r).isOkAnd p = resultIsOkAnd r p ∧
    (chain r).isErrAnd pe = resultIsErrAnd r pe ∧
    (chain r).ok = resultOk r ∧
    (chain r).err = resultErr r :=
  ⟨rfl, rfl, rfl, rfl, rfl, rfl, rfl, rfl, rfl, rfl, rfl, rfl, rfl, rfl, rfl,
   rfl, rfl, rfl, rfl, rfl, rfl, rfl, rfl, rfl⟩

/-- C5: each async combinator agrees with its synchronous counterpart on
already-resolved inputs with pure callbacks: awaiting the async combinator
applied to `Promise.resolve(r)` (with callbacks lifted through
`Promise.resolve`) yields the value of the synchronous combinator at `r`. -/
theorem C5_async_sync_agreement (T R K K' : Type) (D : K → Type)
    (D' : K' → Type) :
    (∀ (r : Result T K D) (fn : T → R),
        awaitD (asyncResultMap (resolveD r) (fun v => resolveD (fn v)))
          = resultMap r fn) ∧
    (∀ (r other : Result T K D),
        awaitD (asyncResultAnd (resolveD r) (resolveD other))
          = resultAnd r other) ∧
    (∀ (r : Result T K D) (fn : T → Result R K D),
        awaitD (asyncResultAndThen (resolveD r) (fun v => resolveD (fn v)))
          = resultAndThen r fn) ∧
    (∀ (r other : Result T K D),
        awaitD (asyncResultOr (resolveD r) (resolveD other))
          = resultOr r other) ∧
    (∀ (r : Result T K D) (fn : ErrVal K D → Result T K D),
        awaitD (asyncResultOrElse (resolveD r) (fun e => resolveD (fn e)))
          = resultOrElse r fn) ∧
    (∀ (r : Result (Result T K D) K D),
        awaitD (asyncResultFlatten (resolveD r)) = resultFlatten r) ∧
    (∀ (r : Result T K D) (d : R) (fn : T → R),
        awaitD (asyncResultMapOr (resolveD r) d (fun v => resolveD (fn v)))
          = resultMapOr r d fn) ∧
    (∀ (r : Result T K D) (df : ErrVal K D → R) (fn : T → R),
        awaitD (asyncResultMapOrElse (resolveD r) (fun e => resolveD (df e))
            (fun v => resolveD (fn v)))
          = resultMapOrElse r df fn) ∧
    (∀ (r : Result T K D) (fn : ErrVal K D → ErrVal K' D'),
        awaitD (asyncResultMapErr (resolveD r) (fun e => resolveD (fn e)))
          = resultMapErr r fn) ∧
    (∀ (r : Result T K D) (d : T),
        awaitD (asyncResultUnwrapOr (resolveD r) d) = resultUnwrapOr r d) ∧
    (∀ (r : Result T K D) (fn : ErrVal K D → T),
        awaitD (asyncResultUnwrapOrElse (resolveD r)
            (fun e => resolveD (fn e)))
          = resultUnwrapOrElse r fn) ∧
    (∀ r : Result T K D,
        awaitD (asyncResultIsOk (resolveD r)) = resultIsOk r) ∧
    (∀ r : Result T K D,
        awaitD (asyncResultIsErr (resolveD r)) = resultIsErr r) ∧
    (∀ (r : Result T K D) (p : T → Bool),
        awaitD (asyncResultIsOkAnd (resolveD r) p) = resultIsOkAnd r p) ∧
    (∀ (r : Result T K D) (p : ErrVal K D → Bool),
        awaitD (asyncResultIsErrAnd (resolveD r) p) = resultIsErrAnd r p) ∧
    (∀ r : Result T K D,
        awaitD (asyncResultOk (resolveD r)) = resultOk r) ∧
    (∀ r : Result T K D,
        awaitD (asyncResultErr (resolveD r)) = resultErr r) ∧
    (∀ r : Result T K D,
        awaitD (asyncResultUnwrap (resolveD r)) = resultUnwrap r) ∧
    (∀ r : Result T K D,
        awaitD (asyncResultUnwrapErr (resolveD r)) = resultUnwrapErr r) ∧
    (∀ (r : Result T K D) (msg : String),
        awaitD (asyncResultExpect (resolveD r) msg) = resultExpect r msg) ∧
    (∀ (r : Result T K D) (msg : String),
        awaitD (asyncResultExpectErr (resolveD r) msg)
          = resultExpectErr r msg) ∧
    (∀ (r : Result T K D) (fn : T → Unit),
        awaitD (asyncResultInspect (resolveD r) (fun v => resolveD (fn v)))
          = resultInspect r fn) ∧
    (∀ (r : Result T K D) (fn : ErrVal K D → Unit),
        awaitD (asyncResultInspectErr (resolveD r)
            (fun e => resolveD (fn e)))
          = resultInspectErr r fn) := by
  refine ⟨?_, ?_, ?_, ?_, ?_, ?_, ?_, ?_, ?_, ?_, ?_, ?_, ?_, ?_, ?_, ?_,
    ?_, ?_, ?_, ?_, ?_, ?_, ?_⟩ <;>
  · intro r
    intros
    cases r <;> rfl

/-- C6: `resultUnwrap` on a Success returns the contained value and on a
Failure throws the failure value itself (not a wrapped generic error);
`resultUnwrapErr` on a Failure returns the failure value and on a Success
throws a generic error. -/
theorem C6_unwrap_behavior (T K : Type) (D : K → Type) (v : T)
    (e : ErrVal K D) :
    resultUnwrap (Result.ok v : Result T K D) = Except.ok v ∧
    resultUnwrap (Result.err e : Result T K D)
      = Except.error (Thrown.failureValue e) ∧
    resultUnwrapErr (Result.err e : Result T K D) = Except.ok e ∧
    resultUnwrapErr (Result.ok v : Result T K D)
      = Except.error (Thrown.jsError "Result is ok; expected an error") :=
  ⟨rfl, rfl, rfl, rfl⟩

/-- C7: `resultFlatten` removes exactly one level of nesting:
`flatten(ok(ok v)) = ok v`, `flatten(ok(err t d)) = err t d`, and
`flatten(err t d) = err t d`. -/
theorem C7_flatten (T K : Type) (D : K → Type) (v : T) (t : K) (d : D t) :
    resultFlatten (ok (ok v) : Result (Result T K D) K D) = ok v ∧
    resultFlatten (ok (err t d) : Result (Result T K D) K D) = err t d ∧
    resultFlatten (err t d : Result (Result T K D) K D) = err t d :=
  ⟨rfl, rfl, rfl⟩

/-- C8: the throwing-computation adapters return `ok x` when the user
computation returns (resolves to) `x` normally and return the Failure
produced by the caller-supplied conversion function applied to the thrown
(rejection) value otherwise; in particular the sync adapter on a throwing
computation with converter `e => failure("parse_error", String(e))` yields a
Failure tagged `parse_error`. -/
theorem C8_tryCatch (T U K : Type) (D : K → Type) (v : T) (u : U)
    (conv : U → ErrVal K D) :
    tryCatchResult (Except.ok v) conv = (ok v : Result T K D) ∧
    tryCatchResult (Except.error u) conv = (Result.err (conv u) : Result T K D) ∧
    awaitD (tryCatchResultAsync (resolveD (Except.ok v)) conv)
      = (ok v : Result T K D) ∧
    awaitD (tryCatchResultAsync (resolveD (Except.error u)) conv)
      = (Result.err (conv u) : Result T K D) ∧
    awaitD (tryCatchResultPromise (resolveD (Except.ok v)) conv)
      = (ok v : Result T K D) ∧
    awaitD (tryCatchResultPromise (resolveD (Except.error u)) conv)
      = (Result.err (conv u) : Result T K D) ∧
    tryCatchResult (Except.error "SyntaxError: Unexpected token")
        (fun e => (⟨"parse_error", e⟩ : ErrVal String (fun _ => String)))
      = (err "parse_error" "SyntaxError: Unexpected token"
          : Result T String (fun _ => String)) :=
  ⟨rfl, rfl, rfl, rfl, rfl, rfl, rfl⟩

/-- C9: the bound failure constructor returned by `errConstructor`, called
with a tag and no detail argument (the calling convention for a variant whose
declared detail type is `undefined`), produces an object whose `detail` field
is present and holds the placeholder `undefined` — the field is not omitted. -/
theorem C9_undetailed_detail_present (tag : String) :
    jsGetField (errConstructorJS tag []) "detail" = some JSValue.undef ∧
    (jsGetField (errConstructorJS tag []) "detail").isSome = true :=
  ⟨rfl, rfl⟩

/-- C10: for every Result exactly one of `resultIsOk` and `resultIsErr` is
`true`; `resultIsErr` is the boolean negation of `resultIsOk`, and both are
determined solely by the `ok` discriminant of the result. -/
theorem C10_isOk_isErr (T K : Type) (D : K → Type) (r : Result T K D)
    (v : T) (e : ErrVal K D) :
    resultIsErr r = !resultIsOk r ∧
    ((resultIsOk r = true ∧ resultIsErr r = false) ∨
      (resultIsOk r = false ∧ resultIsErr r = true)) ∧
    resultIsOk r = r.okFlag ∧
    resultIsErr r = !r.okFlag ∧
    resultIsOk (Result.ok v : Result T K D) = true ∧
    resultIsErr (Result.ok v : Result T K D) = false ∧
    resultIsOk (Result.err e : Result T K D) = false ∧
    resultIsErr (Result.err e : Result T K D) = true := by
  cases r with
  | ok v0 => exact ⟨rfl, Or.inl ⟨rfl, rfl⟩, rfl, rfl, rfl, rfl, rfl, rfl⟩
  | err e0 => exact ⟨rfl, Or.inr ⟨rfl, rfl⟩, rfl, rfl, rfl, rfl, rfl, rfl⟩

end ResultTs
